import Mathlib

/-
  Shallow embedding of the Petal compiler front end (parser.cpp) and
  assembly generator (generator.hpp), translated construct by construct
  from the C++ source. The Parser class owns three pieces of state: the
  token vector (tokens), the cursor (index) and the one-token lookahead
  (curr); they are threaded through every parse function here as the
  arguments ts, i and cur, and each C++ statement curr = consume() shows
  up as a match on consume ts i binding the new lookahead and the new
  cursor. Calls to exit(1) are modeled as the fatal outcome; loops that
  the C++ code could run forever are given fuel, with fuel exhaustion
  modeling divergence. Diagnostics printed to stderr carry no data in
  the C++ program and are not modeled. The generator is a pure function
  from the AST to the list of output lines, mirroring every string the
  C++ code writes to its output stream (stderr messages excluded).
-/

namespace Petal

inductive TokenType where
  | UNKNOWN | TOK_EOF | ID
  | FN | RET | STRUCT | PUB | ENUM | IMPL
  | IF | ELSE | FOR | WHILE
  | INTEGER_LIT
  | PLUS | MINUS | ASTERISK | FSLASH
  | LPAR | RPAR | LCURL | RCURL
  | ARROW
  | I32 | CHAR
  | COMMA | SEMICOLON | COLON
deriving BEq, DecidableEq, Repr

structure Token where
  type : TokenType
  lexeme : String
deriving BEq, DecidableEq, Repr

inductive ASTNodeType where
  | ERROR_NODE | UNKNOWN
  | BINARY_EXPR
  | LITERAL
  | TERM | OPERATOR
  | VAR_CALL | FN_CALL_PARAM | FN_CALL | FN_BODY | FN_RET_TYPE
  | FN_ARG | FN_ARG_LIST | FN_DEF | FN_DECL | FN_RETURN
  | PUB_STRUCT_MEMBER | STRUCT_MEMBER | STRUCT_BODY | STRUCT_DECL | STRUCT_DEF
  | TYPE | VAR_DEF | VAR_DECL
deriving BEq, DecidableEq, Repr

/-- AST node: tag, free-text value, ordered children (ast.hpp). A
default-constructed C++ ASTNode leaves the type field unassigned; the
paths of parser.cpp that never assign it are modeled with UNKNOWN. -/
inductive ASTNode where
  | mk (type : ASTNodeType) (value : String) (children : List ASTNode)

def ASTNode.type : ASTNode → ASTNodeType
  | .mk t _ _ => t

def ASTNode.value : ASTNode → String
  | .mk _ v _ => v

def ASTNode.children : ASTNode → List ASTNode
  | .mk _ _ cs => cs

/-- Outcome of a parser path that does not return normally: fatal models
exit(1); div models an infinite loop (fuel exhaustion). -/
inductive PFail where
  | fatal | div
deriving BEq, DecidableEq, Repr

/-- Result of a parse function: the node built, the new cursor index and
the new lookahead token. -/
abbrev PRes := Except PFail (ASTNode × Nat × Token)

/-- Result of an internal parsing loop: accumulated nodes, new cursor,
new lookahead. -/
abbrev LRes := Except PFail (List ASTNode × Nat × Token)

/-- The synthetic end-marker token returned by Parser::consume past the
end of the token list. -/
def eofTok : Token := Token.mk .TOK_EOF "\x00"

/-- Parser::consume: when one more token exists, advance the cursor and
return the token there together with the new cursor; otherwise return
the synthetic end marker and leave the cursor where it is. -/
def consume (ts : List Token) (i : Nat) : Token × Nat :=
  if i + 1 < ts.length then (ts.getD (i + 1) eofTok, i + 1) else (eofTok, i)

/-- Parser::expect: compare the token at the cursor (tokens[index], not
curr) with the wanted type. -/
def expect (ty : TokenType) (ts : List Token) (i : Nat) : Bool :=
  (ts.getD i eofTok).type == ty

/-- Parser::parse_literal (reads only curr). -/
def parse_literal (cur : Token) : ASTNode :=
  ASTNode.mk .LITERAL cur.lexeme []

/-- Parser::parse_var_call (reads only curr). -/
def parse_var_call (cur : Token) : ASTNode :=
  ASTNode.mk .VAR_CALL cur.lexeme []

/-- Mutual cluster for Parser::parse_fn_call and
Parser::parse_fn_call_param, written as one structural recursion on fuel
so that every concrete run reduces definitionally. The first component
is parse_fn_call, the second the while loop inside it, the third
parse_fn_call_param. -/
def call_funs (ts : List Token) : Nat →
    (Nat → Token → PRes) ×
    (List ASTNode → Nat → Token → LRes) ×
    (Nat → Token → PRes)
  | 0 =>
    (fun _ _ => .error .div, fun _ _ _ => .error .div, fun _ _ => .error .div)
  | fuel + 1 =>
    (fun i cur =>
      let v := cur.lexeme
      match consume ts i with
      | (_, i1) =>
        match consume ts i1 with
        | (c2, i2) =>
          match (call_funs ts fuel).2.1 [] i2 c2 with
          | .error e => .error e
          | .ok (cs, i3, _) =>
            match consume ts i3 with
            | (c4, i4) => .ok (ASTNode.mk .FN_CALL v cs, i4, c4),
     fun acc i cur =>
      match cur.type with
      | .RPAR => .ok (acc, i, cur)
      | _ =>
        match (call_funs ts fuel).2.2 i cur with
        | .error e => .error e
        | .ok (p, i2, _) =>
          match consume ts i2 with
          | (c3, i3) => (call_funs ts fuel).2.1 (acc ++ [p]) i3 c3,
     fun i cur =>
      match cur.type with
      | .ID =>
        if i + 1 < ts.length then
          if (ts.getD (i + 1) eofTok).type == .LPAR then
            match (call_funs ts fuel).1 i cur with
            | .error e => .error e
            | .ok (n, i2, c2) => .ok (ASTNode.mk .FN_CALL_PARAM "" [n], i2, c2)
          else
            .ok (ASTNode.mk .FN_CALL_PARAM "" [parse_var_call cur], i, cur)
        else
          .ok (ASTNode.mk .FN_CALL_PARAM "" [], i, cur)
      | .INTEGER_LIT => .ok (ASTNode.mk .FN_CALL_PARAM "" [parse_literal cur], i, cur)
      | .COMMA => .ok (ASTNode.mk .FN_CALL_PARAM "" [], i, cur)
      | _ => .ok (ASTNode.mk .FN_CALL_PARAM "" [], i, cur))

def parse_fn_call (fuel : Nat) (ts : List Token) (i : Nat) (cur : Token) : PRes :=
  (call_funs ts fuel).1 i cur

def parse_fn_call_param (fuel : Nat) (ts : List Token) (i : Nat) (cur : Token) : PRes :=
  (call_funs ts fuel).2.2 i cur

/-- Parser::parse_ret_statement. -/
def parse_ret_statement (fuel : Nat) (ts : List Token) (i : Nat) (_cur : Token) : PRes :=
  match consume ts i with
  | (c1, i1) =>
    match c1.type with
    | .ID =>
      if i1 + 1 < ts.length then
        if (ts.getD (i1 + 1) eofTok).type == .LPAR then
          match parse_fn_call fuel ts i1 c1 with
          | .error e => .error e
          | .ok (n, i2, c2) => .ok (ASTNode.mk .FN_RETURN "" [n], i2, c2)
        else
          .ok (ASTNode.mk .FN_RETURN "" [parse_var_call c1], i1, c1)
      else
        .ok (ASTNode.mk .FN_RETURN "" [], i1, c1)
    | .INTEGER_LIT => .ok (ASTNode.mk .FN_RETURN "" [parse_literal c1], i1, c1)
    | _ => .ok (ASTNode.mk .FN_RETURN "" [], i1, c1)

/-- Parser::parse_statement. Only the ret keyword produces a statement;
after parsing it the cursor is advanced once more and, when an integer
literal sits there, its lexeme is copied into the statement value. -/
def parse_statement (fuel : Nat) (ts : List Token) (i : Nat) (cur : Token) : PRes :=
  match cur.type with
  | .RET =>
    match parse_ret_statement fuel ts i cur with
    | .error e => .error e
    | .ok (s, i2, _) =>
      match consume ts i2 with
      | (c3, i3) =>
        match c3.type with
        | .INTEGER_LIT => .ok (ASTNode.mk .FN_RETURN c3.lexeme s.children, i3, c3)
        | _ => .ok (ASTNode.mk .FN_RETURN s.value s.children, i3, c3)
  | _ => .ok (ASTNode.mk .UNKNOWN "" [], i, cur)

/-- Parser::parse_fn_body: an immediately closed body is empty;
otherwise exactly one statement is parsed and the body is returned. -/
def parse_fn_body (fuel : Nat) (ts : List Token) (i : Nat) (cur : Token) : PRes :=
  match cur.type with
  | .RCURL =>
    match consume ts i with
    | (c1, i1) => .ok (ASTNode.mk .FN_BODY "" [], i1, c1)
  | _ =>
    match parse_statement fuel ts i cur with
    | .error e => .error e
    | .ok (s, i2, c2) => .ok (ASTNode.mk .FN_BODY "" [s], i2, c2)

/-- Parser::parse_fn_ret_type: re-reads tokens[index] into curr, then
takes the lexeme only for the I32 and CHAR keywords. -/
def parse_fn_ret_type (ts : List Token) (i : Nat) : ASTNode × Nat × Token :=
  let c := ts.getD i eofTok
  match c.type with
  | .I32 => (ASTNode.mk .FN_RET_TYPE c.lexeme [], i, c)
  | .CHAR => (ASTNode.mk .FN_RET_TYPE c.lexeme [], i, c)
  | _ => (ASTNode.mk .FN_RET_TYPE "" [], i, c)

/-- Parser::parse_fn_arg_type (reads only curr). -/
def parse_fn_arg_type (cur : Token) : ASTNode :=
  ASTNode.mk .TYPE cur.lexeme []

/-- Parser::parse_fn_arg: name, then a colon, then only the I32 and CHAR
type keywords produce a type child. -/
def parse_fn_arg (ts : List Token) (i : Nat) (cur : Token) : ASTNode × Nat × Token :=
  let v := cur.lexeme
  match consume ts i with
  | (c1, i1) =>
    match c1.type with
    | .COLON =>
      match consume ts i1 with
      | (c2, i2) =>
        match c2.type with
        | .I32 => (ASTNode.mk .FN_ARG v [parse_fn_arg_type c2], i2, c2)
        | .CHAR => (ASTNode.mk .FN_ARG v [parse_fn_arg_type c2], i2, c2)
        | _ => (ASTNode.mk .FN_ARG v [], i2, c2)
    | _ => (ASTNode.mk .FN_ARG v [], i1, c1)

/-- While loop of Parser::parse_arg_list. The comma case advances once
inside the switch and the loop footer advances again, so the token right
after a comma is never inspected. Any other unexpected token calls
exit(1), modeled as the fatal outcome. -/
def arg_list_loop (fuel : Nat) (ts : List Token) (acc : List ASTNode)
    (i : Nat) (cur : Token) : LRes :=
  match fuel with
  | 0 => .error .div
  | fuel + 1 =>
    match cur.type with
    | .RPAR => .ok (acc, i, cur)
    | .ID =>
      match parse_fn_arg ts i cur with
      | (a, i2, _) =>
        match consume ts i2 with
        | (c3, i3) => arg_list_loop fuel ts (acc ++ [a]) i3 c3
    | .COMMA =>
      match consume ts i with
      | (_, i1) =>
        match consume ts i1 with
        | (c2, i2) => arg_list_loop fuel ts acc i2 c2
    | _ => .error .fatal

def parse_arg_list (fuel : Nat) (ts : List Token) (i : Nat) (cur : Token) : PRes :=
  match arg_list_loop fuel ts [] i cur with
  | .error e => .error e
  | .ok (cs, i2, c2) => .ok (ASTNode.mk .FN_ARG_LIST "" cs, i2, c2)

/-- Tail of Parser::parse_fn after the argument list: the switch on the
token following the closing parenthesis. The semicolon paths set FN_DEF,
the arrow-then-brace path sets FN_DECL, and the brace path without an
arrow never assigns the node type (modeled as UNKNOWN). -/
def parse_fn_tail (fuel : Nat) (ts : List Token) (v : String) (cs : List ASTNode)
    (i : Nat) (cur : Token) : PRes :=
  match cur.type with
  | .ARROW =>
    match consume ts i with
    | (_, i1) =>
      match parse_fn_ret_type ts i1 with
      | (rt, i2, _) =>
        match consume ts i2 with
        | (c3, i3) =>
          if expect .LCURL ts i3 then
            match consume ts i3 with
            | (c4, i4) =>
              match parse_fn_body fuel ts i4 c4 with
              | .error e => .error e
              | .ok (b, i5, c5) => .ok (ASTNode.mk .FN_DECL v (cs ++ [rt, b]), i5, c5)
          else if expect .SEMICOLON ts i3 then
            match consume ts i3 with
            | (c4, i4) => .ok (ASTNode.mk .FN_DEF v (cs ++ [rt]), i4, c4)
          else
            .ok (ASTNode.mk .UNKNOWN v (cs ++ [rt]), i3, c3)
  | .LCURL =>
    match consume ts i with
    | (c1, i1) =>
      match parse_fn_body fuel ts i1 c1 with
      | .error e => .error e
      | .ok (b, i2, c2) => .ok (ASTNode.mk .UNKNOWN v (cs ++ [b]), i2, c2)
  | .SEMICOLON => .ok (ASTNode.mk .FN_DEF v cs, i, cur)
  | _ => .ok (ASTNode.mk .UNKNOWN v cs, i, cur)

/-- Parser::parse_fn. On a missing identifier the empty node is returned
unchanged; on a missing opening parenthesis no argument list child is
pushed and parsing goes on with the shared consume after the branch. -/
def parse_fn (fuel : Nat) (ts : List Token) (i : Nat) (cur : Token) : PRes :=
  if expect .ID ts i then
    let v := (ts.getD i eofTok).lexeme
    match consume ts i with
    | (c1, i1) =>
      match c1.type with
      | .LPAR =>
        match consume ts i1 with
        | (c2, i2) =>
          match parse_arg_list fuel ts i2 c2 with
          | .error e => .error e
          | .ok (args, i3, _) =>
            match consume ts i3 with
            | (c4, i4) => parse_fn_tail fuel ts v [args] i4 c4
      | _ =>
        match consume ts i1 with
        | (c2, i2) => parse_fn_tail fuel ts v [] i2 c2
  else
    .ok (ASTNode.mk .UNKNOWN "" [], i, cur)

/-- Parser::parse_pub_struct_member: the outer switch tests for an ID
token at the position where the colon of the member declaration sits. -/
def parse_pub_struct_member (ts : List Token) (i : Nat) (cur : Token) :
    ASTNode × Nat × Token :=
  let v := cur.lexeme
  match consume ts i with
  | (c1, i1) =>
    match c1.type with
    | .ID =>
      match consume ts i1 with
      | (c2, i2) =>
        match c2.type with
        | .I32 =>
          (ASTNode.mk .PUB_STRUCT_MEMBER v [ASTNode.mk .TYPE c2.lexeme []], i2, c2)
        | _ => (ASTNode.mk .PUB_STRUCT_MEMBER v [], i2, c2)
    | _ => (ASTNode.mk .PUB_STRUCT_MEMBER v [], i1, c1)

/-- Parser::parse_struct_member (reads only curr). -/
def parse_struct_member (i : Nat) (cur : Token) : ASTNode × Nat × Token :=
  (ASTNode.mk .STRUCT_MEMBER cur.lexeme [], i, cur)

/-- While loop of Parser::parse_struct_body. The ID case falls through
to the default case, which does nothing further. -/
def struct_body_loop (fuel : Nat) (ts : List Token) (acc : List ASTNode)
    (i : Nat) (cur : Token) : LRes :=
  match fuel with
  | 0 => .error .div
  | fuel + 1 =>
    match cur.type with
    | .RCURL => .ok (acc, i, cur)
    | .PUB =>
      match consume ts i with
      | (c1, i1) =>
        match parse_pub_struct_member ts i1 c1 with
        | (m, i2, _) =>
          match consume ts i2 with
          | (c3, i3) => struct_body_loop fuel ts (acc ++ [m]) i3 c3
    | .ID =>
      match parse_struct_member i cur with
      | (m, i2, _) =>
        match consume ts i2 with
        | (c3, i3) => struct_body_loop fuel ts (acc ++ [m]) i3 c3
    | _ =>
      match consume ts i with
      | (c1, i1) => struct_body_loop fuel ts acc i1 c1

def parse_struct_body (fuel : Nat) (ts : List Token) (i : Nat) (cur : Token) : PRes :=
  match struct_body_loop fuel ts [] i cur with
  | .error e => .error e
  | .ok (cs, i2, c2) => .ok (ASTNode.mk .STRUCT_BODY "" cs, i2, c2)

/-- Parser::parse_struct. -/
def parse_struct (fuel : Nat) (ts : List Token) (i : Nat) (cur : Token) : PRes :=
  match cur.type with
  | .ID =>
    let v := cur.lexeme
    match consume ts i with
    | (c1, i1) =>
      match c1.type with
      | .SEMICOLON => .ok (ASTNode.mk .STRUCT_DECL v [], i1, c1)
      | .LCURL =>
        match consume ts i1 with
        | (c2, i2) =>
          match parse_struct_body fuel ts i2 c2 with
          | .error e => .error e
          | .ok (b, i3, c3) => .ok (ASTNode.mk .STRUCT_DEF v [b], i3, c3)
      | _ => .ok (ASTNode.mk .UNKNOWN v [], i1, c1)
  | _ => .ok (ASTNode.mk .UNKNOWN "" [], i, cur)

/-- Top-level loop of the Parser constructor: one AST node per fn or
struct keyword, any other token at top level is skipped. -/
def parse_top (fuel : Nat) (ts : List Token) (acc : List ASTNode) (i : Nat) :
    Except PFail (List ASTNode) :=
  match fuel with
  | 0 => .error .div
  | fuel + 1 =>
    if i < ts.length then
      match (ts.getD i eofTok).type with
      | .FN =>
        match consume ts i with
        | (c1, i1) =>
          match parse_fn fuel ts i1 c1 with
          | .error e => .error e
          | .ok (n, i2, _) => parse_top fuel ts (acc ++ [n]) i2
      | .STRUCT =>
        match consume ts i with
        | (c1, i1) =>
          match parse_struct fuel ts i1 c1 with
          | .error e => .error e
          | .ok (n, i2, _) => parse_top fuel ts (acc ++ [n]) i2
      | _ => parse_top fuel ts acc (i + 1)
    else
      .ok acc

/-- Whole parser run on a token list, with fuel generous enough for any
terminating run on the list. -/
def parseProgram (ts : List Token) : Except PFail (List ASTNode) :=
  parse_top (4 * ts.length + 8) ts [] 0

/-- Concatenation of the lines a per-child emitter writes, in child
order, mirroring the for loops of the Generator methods. -/
def gen_children (f : ASTNode → List String) : List ASTNode → List String
  | [] => []
  | c :: cs => f c ++ gen_children f cs

/-- Generator::link: the entry point main is emitted unmangled, every
other symbol gets the underscore prefix; both are declared global. -/
def link (s : String) : List String :=
  if s == "main" then
    ["# fn \x27main\x27", "  .globl main", "main:"]
  else
    ["# fn \x27" ++ s ++ "\x27", "  .globl _" ++ s, "_" ++ s ++ ":"]

/-- Generator::setup_stack_ptr (prologue). -/
def setup_stack_ptr : List String :=
  ["# setup stack ptr", "  pushq %rbp", "  movq  %rsp, %rbp", ""]

/-- Generator::return_stack_ptr (epilogue). -/
def return_stack_ptr : List String :=
  ["# return stack ptr", "  popq  %rbp", "  ret", ""]

/-- Generator::fn_arg_gen: every i32 argument is stored from ecx at
offset 16 from the frame pointer, every argument of type ampersand
bracket char bracket from rdx at offset 24; other types emit nothing. -/
def fn_arg_gen (arg : ASTNode) : List String :=
  gen_children
    (fun c =>
      match c.type with
      | .TYPE =>
        if c.value == "i32" then ["  movl  %ecx, 16(%rbp)"]
        else if c.value == "&[char]" then ["  movq  %rdx, 24(%rbp)"]
        else []
      | _ => [])
    arg.children

/-- Generator::fn_arg_list_gen. -/
def fn_arg_list_gen (args : ASTNode) : List String :=
  gen_children
    (fun c => match c.type with | .FN_ARG => fn_arg_gen c | _ => [])
    args.children

/-- Generator::fn_call_param_gen: every literal child is moved into ecx,
always the same register. -/
def fn_call_param_gen (param : ASTNode) : List String :=
  gen_children
    (fun c =>
      match c.type with
      | .LITERAL => ["  movl  $" ++ c.value ++ ", %ecx"]
      | _ => [])
    param.children

/-- Generator::fn_call_gen: parameter loads in child order, then the
call to the mangled symbol. -/
def fn_call_gen (call : ASTNode) : List String :=
  gen_children
    (fun c => match c.type with | .FN_CALL_PARAM => fn_call_param_gen c | _ => [])
    call.children
  ++ ["  call  " ++ (if call.value == "main" then "main" else "_" ++ call.value)]

def starts_with_digit (s : String) : Bool :=
  match s.data with
  | [] => false
  | c :: _ => c.isDigit

/-- Generator::fn_return_gen, dispatching on the first child. The C++
code indexes children[0] without a bound check; the empty case, which no
claim reaches, is modeled as emitting nothing. A variable reference
always emits the same load from offset 16, whatever the variable. -/
def fn_return_gen (ret : ASTNode) : List String :=
  match ret.children with
  | [] => []
  | c :: _ =>
    match c.type with
    | .FN_CALL => fn_call_gen c
    | .LITERAL =>
      if starts_with_digit c.value then ["  movl  $" ++ c.value ++ ", %eax"]
      else []
    | .VAR_CALL => ["  movl \t16(%rbp), %eax"]
    | _ => []

/-- Generator::fn_body_gen. -/
def fn_body_gen (body : ASTNode) : List String :=
  gen_children
    (fun c => match c.type with | .FN_RETURN => fn_return_gen c | _ => [])
    body.children

/-- Generator::fn_gen: label block, prologue, children (argument list
with the main arity special case, then body), epilogue. -/
def fn_gen (fn : ASTNode) : List String :=
  link fn.value ++ setup_stack_ptr ++
  gen_children
    (fun c =>
      match c.type with
      | .FN_ARG_LIST =>
        if fn.value == "main" then
          if c.children.length == 2 then fn_arg_list_gen c
          else if c.children.isEmpty then []
          else fn_arg_list_gen c
        else
          if c.children.isEmpty then [] else fn_arg_list_gen c
      | .FN_BODY => fn_body_gen c
      | _ => [])
    fn.children
  ++ return_stack_ptr

/-- Generator::struct_gen emits no output lines. -/
def struct_gen (_struc : ASTNode) : List String := []

/-- Top-level loop of the Generator constructor. The switch ends with an
unconditional break of the for loop, so only a FN_DECL node, whose case
ends in continue, lets the loop reach the next node; every other node
kind, including FN_DEF forward declarations and struct nodes, stops the
pass (struct declarations update bookkeeping but emit nothing first). -/
def generate_body : List ASTNode → List String
  | [] => []
  | n :: rest =>
    match n.type with
    | .FN_DECL => fn_gen n ++ generate_body rest
    | .STRUCT_DECL => struct_gen n
    | _ => []

/-- Whole generator run: file header, the top-level pass, and the
trailing ident line, as written by the Generator constructor. -/
def generate (ast : List ASTNode) (filename : String) : List String :=
  ["# translation unit \x27" ++ filename ++ "\x27",
   "  .file \"" ++ filename ++ "\"",
   "  .text", ""]
  ++ generate_body ast
  ++ ["  .ident\t\"tLotus: (@neomannskar, 2025)\""]

/-- Token helpers for concrete programs. -/
def tFN : Token := Token.mk .FN "fn"
def tRET : Token := Token.mk .RET "ret"
def tSTRUCT : Token := Token.mk .STRUCT "struct"
def tPUB : Token := Token.mk .PUB "pub"
def tI32 : Token := Token.mk .I32 "i32"
def tID (s : String) : Token := Token.mk .ID s
def tINT (s : String) : Token := Token.mk .INTEGER_LIT s
def tLPAR : Token := Token.mk .LPAR "("
def tRPAR : Token := Token.mk .RPAR ")"
def tLCURL : Token := Token.mk .LCURL "\x7b"
def tRCURL : Token := Token.mk .RCURL "\x7d"
def tCOMMA : Token := Token.mk .COMMA ","
def tSEMI : Token := Token.mk .SEMICOLON ";"
def tCOLON : Token := Token.mk .COLON ":"
def tARROW : Token := Token.mk .ARROW "->"

/-! Claim C1 -/

/-- Token sequence of the program fn add(a: i32, b: i32) -> i32 with a
body returning the literal 0. -/
def c1toks : List Token :=
  [tFN, tID "add", tLPAR, tID "a", tCOLON, tI32, tCOMMA, tID "b", tCOLON, tI32,
   tRPAR, tARROW, tI32, tLCURL, tRET, tINT "0", tSEMI, tRCURL]

/-- Claim C1 (code_bug evidence): the claim states that this program
parses to one function-definition node with both arguments; instead the
parser terminates compilation fatally. The comma case of parse_arg_list
advances the cursor once inside the switch and once more at the loop
footer, so the identifier of the second argument is skipped and the
colon after it reaches the fatal default case, which calls exit(1). -/
theorem claim_C1_two_arg_fn_aborts : parseProgram c1toks = .error .fatal := rfl

/-! Claim C2 -/

/-- Token sequence of fn main() -> i32 with a body returning 0. -/
def c2toks : List Token :=
  [tFN, tID "main", tLPAR, tRPAR, tARROW, tI32, tLCURL, tRET, tINT "0", tSEMI, tRCURL]

/-- AST that c2toks parses to. -/
def c2ast : ASTNode :=
  ASTNode.mk .FN_DECL "main"
    [ASTNode.mk .FN_ARG_LIST "" [],
     ASTNode.mk .FN_RET_TYPE "i32" [],
     ASTNode.mk .FN_BODY "" [ASTNode.mk .FN_RETURN "" [ASTNode.mk .LITERAL "0" []]]]

/-- Claim C2 (confirmed): generating assembly from the AST of the
program fn main() -> i32 returning 0 yields output whose line list
contains the label main: exactly once, the directive .globl main, the
instruction moving immediate 0 into eax, and a ret instruction. The
exact output is also given in full. -/
theorem claim_C2_main_assembly :
    parseProgram c2toks = .ok [c2ast] ∧
    generate [c2ast] "main.lt" =
      ["# translation unit \x27main.lt\x27", "  .file \"main.lt\"", "  .text", "",
       "# fn \x27main\x27", "  .globl main", "main:",
       "# setup stack ptr", "  pushq %rbp", "  movq  %rsp, %rbp", "",
       "  movl  $0, %eax",
       "# return stack ptr", "  popq  %rbp", "  ret", "",
       "  .ident\t\"tLotus: (@neomannskar, 2025)\""] ∧
    (generate [c2ast] "main.lt").count "main:" = 1 ∧
    "  .globl main" ∈ generate [c2ast] "main.lt" ∧
    "  movl  $0, %eax" ∈ generate [c2ast] "main.lt" ∧
    "  ret" ∈ generate [c2ast] "main.lt" :=
  ⟨rfl, rfl, rfl, by decide, by decide, by decide⟩

/-! Claim C3 -/

/-- Token sequence of struct Point with one public member x of type
i32. -/
def c3toks : List Token :=
  [tSTRUCT, tID "Point", tLCURL, tPUB, tID "x", tCOLON, tI32, tRCURL]

/-- Claim C3 (code_bug evidence): the claim states the public member x
carries one type child i32; instead the member node has no children.
parse_pub_struct_member tests for an ID token at the position where the
colon sits (its own diagnostic text says it expected the colon and a
type), so the colon falls to the error default and the type child is
never attached. -/
theorem claim_C3_pub_member_loses_type :
    parseProgram c3toks =
      .ok [ASTNode.mk .STRUCT_DEF "Point"
             [ASTNode.mk .STRUCT_BODY ""
                [ASTNode.mk .PUB_STRUCT_MEMBER "x" []]]] ∧
    ([] : List ASTNode) ≠ [ASTNode.mk .TYPE "i32" []] :=
  ⟨rfl, by simp⟩

/-! Claim C4 -/

/-- Token sequence of struct Point; followed by fn main() -> i32
returning 0. -/
def c4toks : List Token :=
  [tSTRUCT, tID "Point", tSEMI,
   tFN, tID "main", tLPAR, tRPAR, tARROW, tI32, tLCURL, tRET, tINT "0", tSEMI, tRCURL]

def c4struct : ASTNode := ASTNode.mk .STRUCT_DECL "Point" []

def c4fn : ASTNode :=
  ASTNode.mk .FN_DECL "main"
    [ASTNode.mk .FN_ARG_LIST "" [],
     ASTNode.mk .FN_RET_TYPE "i32" [],
     ASTNode.mk .FN_BODY "" [ASTNode.mk .FN_RETURN "" [ASTNode.mk .LITERAL "0" []]]]

/-- Claim C4 (code_bug evidence): the claim states that every function
definition in the top-level list gets its block emitted regardless of
preceding nodes. The generator emits the block for main when main is the
only node, but when a struct declaration precedes it the top-level
switch falls to the unconditional break of the for loop and main is
never emitted: the label main: does not appear. -/
theorem claim_C4_generator_stops_at_first_non_fn :
    parseProgram c4toks = .ok [c4struct, c4fn] ∧
    (generate [c4struct, c4fn] "main.lt").count "main:" = 0 ∧
    (generate [c4fn] "main.lt").count "main:" = 1 :=
  ⟨rfl, rfl, rfl⟩

/-! Claim C5 -/

/-- Claim C5 counterexample: a function with a body but no arrow return
type, fn f() with body returning 0, gets a body child but its node kind
is never assigned (modeled UNKNOWN): it is not marked as a definition
(FN_DECL, the kind the generator emits) nor as a forward declaration
(FN_DEF), refuting the claim that the brace form is marked as a full
definition both with and without an arrow. -/
theorem claim_C5_counterexample :
    parseProgram [tFN, tID "f", tLPAR, tRPAR, tLCURL, tRET, tINT "0", tSEMI, tRCURL] =
      .ok [ASTNode.mk .UNKNOWN "f"
             [ASTNode.mk .FN_ARG_LIST "" [],
              ASTNode.mk .FN_BODY "" [ASTNode.mk .FN_RETURN "" [ASTNode.mk .LITERAL "0" []]]]] ∧
    ASTNodeType.UNKNOWN ≠ ASTNodeType.FN_DECL ∧
    ASTNodeType.UNKNOWN ≠ ASTNodeType.FN_DEF :=
  ⟨rfl, by decide, by decide⟩

lemma c5_semi (n : String) :
    parseProgram [tFN, tID n, tLPAR, tRPAR, tSEMI] =
      .ok [ASTNode.mk .FN_DEF n [ASTNode.mk .FN_ARG_LIST "" []]] := rfl

lemma c5_arrow_semi (n : String) :
    parseProgram [tFN, tID n, tLPAR, tRPAR, tARROW, tI32, tSEMI] =
      .ok [ASTNode.mk .FN_DEF n
             [ASTNode.mk .FN_ARG_LIST "" [], ASTNode.mk .FN_RET_TYPE "i32" []]] := rfl

lemma c5_arrow_body (n : String) :
    parseProgram [tFN, tID n, tLPAR, tRPAR, tARROW, tI32, tLCURL, tRET, tINT "0", tSEMI, tRCURL] =
      .ok [ASTNode.mk .FN_DECL n
             [ASTNode.mk .FN_ARG_LIST "" [],
              ASTNode.mk .FN_RET_TYPE "i32" [],
              ASTNode.mk .FN_BODY "" [ASTNode.mk .FN_RETURN "" [ASTNode.mk .LITERAL "0" []]]]] := rfl

lemma c5_plain_body (n : String) :
    parseProgram [tFN, tID n, tLPAR, tRPAR, tLCURL, tRET, tINT "0", tSEMI, tRCURL] =
      .ok [ASTNode.mk .UNKNOWN n
             [ASTNode.mk .FN_ARG_LIST "" [],
              ASTNode.mk .FN_BODY "" [ASTNode.mk .FN_RETURN "" [ASTNode.mk .LITERAL "0" []]]]] := rfl

/-- Claim C5 (amended): for every function name, the semicolon form is
marked FN_DEF with no body child both with and without an arrow return
type; the brace form with an arrow is marked FN_DECL with a body child;
but the brace form without an arrow, while it gets a body child, is left
with an unassigned node kind instead of being marked as a definition. -/
theorem claim_C5_amended (n : String) :
    parseProgram [tFN, tID n, tLPAR, tRPAR, tSEMI] =
      .ok [ASTNode.mk .FN_DEF n [ASTNode.mk .FN_ARG_LIST "" []]] ∧
    parseProgram [tFN, tID n, tLPAR, tRPAR, tARROW, tI32, tSEMI] =
      .ok [ASTNode.mk .FN_DEF n
             [ASTNode.mk .FN_ARG_LIST "" [], ASTNode.mk .FN_RET_TYPE "i32" []]] ∧
    parseProgram [tFN, tID n, tLPAR, tRPAR, tARROW, tI32, tLCURL, tRET, tINT "0", tSEMI, tRCURL] =
      .ok [ASTNode.mk .FN_DECL n
             [ASTNode.mk .FN_ARG_LIST "" [],
              ASTNode.mk .FN_RET_TYPE "i32" [],
              ASTNode.mk .FN_BODY "" [ASTNode.mk .FN_RETURN "" [ASTNode.mk .LITERAL "0" []]]]] ∧
    parseProgram [tFN, tID n, tLPAR, tRPAR, tLCURL, tRET, tINT "0", tSEMI, tRCURL] =
      .ok [ASTNode.mk .UNKNOWN n
             [ASTNode.mk .FN_ARG_LIST "" [],
              ASTNode.mk .FN_BODY "" [ASTNode.mk .FN_RETURN "" [ASTNode.mk .LITERAL "0" []]]]] :=
  ⟨c5_semi n, c5_arrow_semi n, c5_arrow_body n, c5_plain_body n⟩

/-! Claim C6 -/

/-- Claim C6 counterexample: a body with two ret statements, from fn f()
-> i32 with body ret 0; ret 1;, yields a body node with one child, not
two: parse_fn_body parses a single statement and returns. -/
theorem claim_C6_counterexample :
    parseProgram [tFN, tID "f", tLPAR, tRPAR, tARROW, tI32, tLCURL,
                  tRET, tINT "0", tSEMI, tRET, tINT "1", tSEMI, tRCURL] =
      .ok [ASTNode.mk .FN_DECL "f"
             [ASTNode.mk .FN_ARG_LIST "" [],
              ASTNode.mk .FN_RET_TYPE "i32" [],
              ASTNode.mk .FN_BODY "" [ASTNode.mk .FN_RETURN "" [ASTNode.mk .LITERAL "0" []]]]] ∧
    (ASTNode.mk .FN_BODY "" [ASTNode.mk .FN_RETURN "" [ASTNode.mk .LITERAL "0" []]]).children.length ≠ 2 :=
  ⟨rfl, by decide⟩

/-- Claim C6 (amended): every successful run of parse_fn_body returns a
body node with at most one statement child: the empty body on an
immediate closing brace, otherwise exactly one parsed statement. -/
theorem claim_C6_amended (fuel : Nat) (ts : List Token) (i : Nat) (cur : Token)
    (b : ASTNode) (i2 : Nat) (c2 : Token)
    (h : parse_fn_body fuel ts i cur = .ok (b, i2, c2)) :
    b.type = .FN_BODY ∧ b.children.length ≤ 1 := by
  unfold parse_fn_body at h
  split at h
  · split at h
    simp only [Except.ok.injEq, Prod.mk.injEq] at h
    obtain ⟨hb, -⟩ := h
    subst hb
    exact ⟨rfl, by decide⟩
  · split at h
    · exact absurd h (by simp)
    · simp only [Except.ok.injEq, Prod.mk.injEq] at h
      obtain ⟨hb, -⟩ := h
      subst hb
      exact ⟨rfl, Nat.le_refl 1⟩

/-- Claim C6 witness: the amended theorem applied to a concrete run of
parse_fn_body on an immediately closed body. -/
theorem claim_C6_amended_witness :
    (ASTNode.mk .FN_BODY "" []).type = .FN_BODY ∧
    (ASTNode.mk .FN_BODY "" []).children.length ≤ 1 :=
  claim_C6_amended 1 [] 0 tRCURL (ASTNode.mk .FN_BODY "" []) 0 eofTok rfl

/-! Claim C7 -/

/-- Function g with one slice-typed argument s, stored by the prologue
at offset 24, whose body returns the variable s. -/
def c7fn : ASTNode :=
  ASTNode.mk .FN_DECL "g"
    [ASTNode.mk .FN_ARG_LIST "" [ASTNode.mk .FN_ARG "s" [ASTNode.mk .TYPE "&[char]" []]],
     ASTNode.mk .FN_BODY "" [ASTNode.mk .FN_RETURN "" [ASTNode.mk .VAR_CALL "s" []]]]

/-- Claim C7 counterexample: the argument s is stored at offset 24 from
the frame pointer in the prologue, but the return of s loads from offset
16, not from the recorded offset of s: fn_return_gen hardcodes the load
at 16 for every variable reference. -/
theorem claim_C7_counterexample :
    fn_gen c7fn =
      ["# fn \x27g\x27", "  .globl _g", "_g:",
       "# setup stack ptr", "  pushq %rbp", "  movq  %rsp, %rbp", "",
       "  movq  %rdx, 24(%rbp)",
       "  movl \t16(%rbp), %eax",
       "# return stack ptr", "  popq  %rbp", "  ret", ""] ∧
    "  movq  %rdx, 24(%rbp)" ∈ fn_gen c7fn ∧
    "  movl \t16(%rbp), %eax" ∈ fn_gen c7fn ∧
    "  movl \t24(%rbp), %eax" ∉ fn_gen c7fn :=
  ⟨rfl, by decide, by decide, by decide⟩

/-- Claim C7 (amended): a return statement whose first child is a
variable reference always generates exactly the one instruction loading
from offset 16 into eax, whatever the variable, its children, and any
further expression children. -/
theorem claim_C7_amended (s nm : String) (kids rest : List ASTNode) :
    fn_return_gen (ASTNode.mk .FN_RETURN s (ASTNode.mk .VAR_CALL nm kids :: rest)) =
      ["  movl \t16(%rbp), %eax"] := rfl

/-! Claim C8 -/

/-- Call node for foo(1, 2) with two literal parameters. -/
def c8call : ASTNode :=
  ASTNode.mk .FN_CALL "foo"
    [ASTNode.mk .FN_CALL_PARAM "" [ASTNode.mk .LITERAL "1" []],
     ASTNode.mk .FN_CALL_PARAM "" [ASTNode.mk .LITERAL "2" []]]

/-- Claim C8 counterexample: for the call foo(1, 2) both parameter loads
move into the same register ecx; successive parameters do not go into
distinct successive registers, so the second overwrites the first before
the call. -/
theorem claim_C8_counterexample :
    fn_call_gen c8call = ["  movl  $1, %ecx", "  movl  $2, %ecx", "  call  _foo"] ∧
    "  movl  $1, %ecx" = "  movl  $" ++ "1" ++ ", %ecx" ∧
    "  movl  $2, %ecx" = "  movl  $" ++ "2" ++ ", %ecx" :=
  ⟨rfl, rfl, rfl⟩

lemma gen_children_call_params (vs : List String) :
    gen_children
      (fun c => match c.type with | .FN_CALL_PARAM => fn_call_param_gen c | _ => [])
      (vs.map (fun v => ASTNode.mk .FN_CALL_PARAM "" [ASTNode.mk .LITERAL v []])) =
    vs.map (fun v => "  movl  $" ++ v ++ ", %ecx") := by
  induction vs with
  | nil => rfl
  | cons v vs ih =>
    simp only [List.map_cons, gen_children, ih]
    rfl

/-- Claim C8 (amended): for every call whose parameters are literals,
the generator emits one load per parameter in left-to-right call-site
order, each into the same register ecx (not distinct successive
registers), and all loads come strictly before the call instruction to
the mangled callee symbol. -/
theorem claim_C8_amended (f : String) (vs : List String) :
    fn_call_gen
      (ASTNode.mk .FN_CALL f
        (vs.map (fun v => ASTNode.mk .FN_CALL_PARAM "" [ASTNode.mk .LITERAL v []]))) =
      vs.map (fun v => "  movl  $" ++ v ++ ", %ecx") ++
      ["  call  " ++ (if f == "main" then "main" else "_" ++ f)] := by
  unfold fn_call_gen
  rw [show (ASTNode.mk .FN_CALL f
        (vs.map (fun v => ASTNode.mk .FN_CALL_PARAM "" [ASTNode.mk .LITERAL v []]))).children
      = vs.map (fun v => ASTNode.mk .FN_CALL_PARAM "" [ASTNode.mk .LITERAL v []]) from rfl,
     gen_children_call_params]
  rfl

/-! Claim C9 -/

/-- Claim C9 counterexample: an argument list holding two stray commas
and no argument, fn bad(,,) followed by a semicolon, is accepted
silently as a function with an empty argument list: the token after a
comma is skipped without inspection, so the second comma never reaches
the fatal default case and the loop lands exactly on the closing
parenthesis. -/
theorem claim_C9_counterexample :
    parseProgram [tFN, tID "bad", tLPAR, tCOMMA, tCOMMA, tRPAR, tSEMI] =
      .ok [ASTNode.mk .FN_DEF "bad" [ASTNode.mk .FN_ARG_LIST "" []]] ∧
    parseProgram [tFN, tID "bad", tLPAR, tCOMMA, tCOMMA, tRPAR, tSEMI] ≠
      .error .fatal :=
  ⟨rfl, fun h => Except.noConfusion h⟩

/-- Claim C9 (amended): a stray token that the argument-list loop
actually inspects is fatal every time: the single stray comma of
fn bad(,) aborts compilation, as does a stray literal such as
fn bad(5);. Only a token standing immediately after a comma escapes
inspection (see the counterexample). -/
theorem claim_C9_amended :
    parseProgram [tFN, tID "bad", tLPAR, tCOMMA, tRPAR] = .error .fatal ∧
    parseProgram [tFN, tID "bad", tLPAR, tINT "5", tRPAR, tSEMI] = .error .fatal :=
  ⟨rfl, rfl⟩

/-! Claim C10 -/

/-- Claim C10 (confirmed): advancing the cursor with consume inside the
token list moves to the next token; at or past the last token it returns
the synthetic end-marker token and leaves the cursor unchanged rather
than failing; consequently, from an in-bounds cursor the new cursor is
again in bounds, so token accesses through the cursor stay in bounds. -/
theorem claim_C10_consume (ts : List Token) (i : Nat) :
    (i + 1 < ts.length → consume ts i = (ts.getD (i + 1) eofTok, i + 1)) ∧
    (¬ i + 1 < ts.length → consume ts i = (eofTok, i)) ∧
    (i < ts.length → (consume ts i).2 < ts.length) := by
  refine ⟨fun h => ?_, fun h => ?_, fun h => ?_⟩
  · unfold consume
    rw [if_pos h]
  · unfold consume
    rw [if_neg h]
  · unfold consume
    split
    · next hlt => simpa using hlt
    · simpa using h

/-- Claim C10 witness: the consume specification applied at concrete
cursors, one at the last token and one with room to advance. -/
theorem claim_C10_consume_witness :
    consume [tFN] 0 = (eofTok, 0) ∧ (consume [tFN, tSEMI] 0).2 < 2 :=
  ⟨(claim_C10_consume [tFN] 0).2.1 (by decide),
   (claim_C10_consume [tFN, tSEMI] 0).2.2 (by decide)⟩

end Petal
